import Mathlib

/-!
Verification development for `process_ble_data/honeycomb_io.py`.

The module fetches BLE datapoints from a remote graph service, joins them
against tag and anchor device-assignment tables, and returns a tabular
result.  We shallow-embed the pure data-reshaping logic of each function:

* the remote client is modelled as a function from the query arguments to
  the list of records the service returns;
* a pandas cell is `Option String` (`none` is a null / NaN cell);
* Python `raise ValueError` is modelled with `Except` / an error sum type;
* timestamps are modelled as integers (the external
  `minimal_honeycomb.to_honeycomb_datetime` serializer is embedded as the
  identity on these integers);
* a pandas left join (`DataFrame.join(other, on=col)`) emits, for every
  left row, one output row per right-index entry whose key equals the left
  row's key column, and a single all-null-extended row when no entry
  matches.  Following pandas merge semantics (documented to differ from
  SQL), null keys are matched against null keys, so key comparison is
  plain equality on `Option String`.
-/

namespace ProcessBleData

/-- A pandas cell: a string value or a null / NaN entry. -/
abbrev Cell := Option String

/-- A record returned by the `findEnvironments` bulk query with
`return_data=['environment_id']`. -/
structure EnvRecord where
  environment_id : String
deriving DecidableEq, Repr

/-- The distinct `ValueError`s raised by the module. -/
inductive FetchError where
  /-- `'If environment ID is specified, environment name cannot be specified'` -/
  | conflictingIdName
  /-- `'No environments match environment name ...'` -/
  | noEnvironmentMatch
  /-- `'Multiple environments match environment name ...'` -/
  | multipleEnvironmentMatch
  /-- `'Must specify environment'` (raised in `fetch_ble_datapoints`) -/
  | mustSpecifyEnvironment
deriving DecidableEq, Repr

/-- Shallow embedding of `fetch_environment_id` (honeycomb_io.py lines
156-204).  The client is modelled as the function taking the
`findEnvironments` name argument to the list of records the query returns.
The second component of the result counts the bulk queries issued, and the
first is the returned value (`none` when the Python function returns
`None`) or the raised error. -/
def fetch_environment_id (environment_id : Option String)
    (environment_name : Option String)
    (client : String → List EnvRecord) :
    Except FetchError (Option String) × Nat :=
  match environment_id with
  | some eid =>
    match environment_name with
    | some _ => (.error .conflictingIdName, 0)
    | none => (.ok (some eid), 0)
  | none =>
    match environment_name with
    | some name =>
      match client name with
      | [] => (.error .noEnvironmentMatch, 1)
      | [e] => (.ok (some e.environment_id), 1)
      | _ :: _ :: _ => (.error .multipleEnvironmentMatch, 1)
    | none => (.ok none, 0)

/-- The environment-resolution prelude of `fetch_ble_datapoints`
(honeycomb_io.py lines 26-38): call `fetch_environment_id`, then raise
`'Must specify environment'` when it produced `None`. -/
def resolve_environment (environment_id : Option String)
    (environment_name : Option String)
    (client : String → List EnvRecord) : Except FetchError String :=
  match fetch_environment_id environment_id environment_name client with
  | (.error e, _) => .error e
  | (.ok none, _) => .error .mustSpecifyEnvironment
  | (.ok (some eid), _) => .ok eid

/-- C2: for every non-None `environment_id` given with `environment_name`
equal to `None`, `fetch_environment_id` returns that `environment_id`
unchanged and issues no query to the client. -/
theorem fetch_environment_id_by_id (eid : String)
    (client : String → List EnvRecord) :
    fetch_environment_id (some eid) none client = (.ok (some eid), 0) := by
  rfl

/-- C3: for every `environment_name` given with `environment_id` equal to
`None`: if the `findEnvironments` query returns exactly one environment,
`fetch_environment_id` returns that environment's `environment_id`; if it
returns zero environments or more than one environment,
`fetch_environment_id` raises a `ValueError`. -/
theorem fetch_environment_id_by_name (name : String)
    (client : String → List EnvRecord) :
    (∀ e, client name = [e] →
      fetch_environment_id none (some name) client =
        (.ok (some e.environment_id), 1)) ∧
    (client name = [] →
      fetch_environment_id none (some name) client =
        (.error .noEnvironmentMatch, 1)) ∧
    (∀ e1 e2 rest, client name = e1 :: e2 :: rest →
      fetch_environment_id none (some name) client =
        (.error .multipleEnvironmentMatch, 1)) := by
  refine ⟨fun e he => ?_, fun he => ?_, fun e1 e2 rest he => ?_⟩ <;>
    simp [fetch_environment_id, he]

/-- Witness for C3 at concrete clients returning one, zero and two
environments. -/
theorem fetch_environment_id_by_name_witness :
    fetch_environment_id none (some "classroom") (fun _ => [⟨"E1"⟩]) =
      (.ok (some "E1"), 1) ∧
    fetch_environment_id none (some "classroom") (fun _ => []) =
      (.error .noEnvironmentMatch, 1) ∧
    fetch_environment_id none (some "classroom") (fun _ => [⟨"E1"⟩, ⟨"E2"⟩]) =
      (.error .multipleEnvironmentMatch, 1) :=
  ⟨(fetch_environment_id_by_name "classroom" (fun _ => [⟨"E1"⟩])).1 ⟨"E1"⟩ rfl,
   (fetch_environment_id_by_name "classroom" (fun _ => [])).2.1 rfl,
   (fetch_environment_id_by_name "classroom"
      (fun _ => [⟨"E1"⟩, ⟨"E2"⟩])).2.2 ⟨"E1"⟩ ⟨"E2"⟩ [] rfl⟩

/-- C4: for every call in which both `environment_id` and
`environment_name` are non-None, `fetch_environment_id` raises a
`ValueError` and issues no query to the client. -/
theorem fetch_environment_id_conflict (eid name : String)
    (client : String → List EnvRecord) :
    fetch_environment_id (some eid) (some name) client =
      (.error .conflictingIdName, 0) := by
  rfl

/-- C5: when neither `environment_id` nor `environment_name` is given,
`fetch_environment_id` returns `None` without querying, and the
environment resolution performed by `fetch_ble_datapoints` therefore
raises `'Must specify environment'` rather than proceeding. -/
theorem resolve_environment_missing (client : String → List EnvRecord) :
    fetch_environment_id none none client = (.ok none, 0) ∧
    resolve_environment none none client = .error .mustSpecifyEnvironment := by
  exact ⟨rfl, rfl⟩

/-! Device assignments (`fetch_device_assignments`, honeycomb_io.py lines
206-291).  The service records carry the fields requested by the
`searchAssignments` query; nested `assigned` device fields obtained with
`.get(...)` are nullable cells. -/

/-- The `... on Device` fields requested by `fetch_device_assignments`
(honeycomb_io.py lines 236-245). -/
structure Device where
  device_id : Option String
  part_number : Option String
  device_type : Option String
  name : Option String
  tag_id : Option String
  serial_number : Option String
deriving DecidableEq, Repr

/-- A record returned by the `searchAssignments` bulk query: assignment id
(the query's id field), assignment time window, and the assigned device.
An absent `end` means the assignment is still open. -/
structure AssignmentRecord where
  assignment_id : String
  start : Int
  «end» : Option Int
  assigned : Device
deriving DecidableEq, Repr

/-- Modelled from the spec: `minimal_honeycomb.filter_assignments` is an
external dependency (not part of this repository); the spec describes it
as "a time-window overlap filter" whose windows are half-open, keeping the
assignments whose active window `[a.start, a.end)` (unbounded when `end`
is absent) overlaps the requested window `[start_time, end_time)` (either
bound may be absent, meaning unbounded on that side). -/
def overlaps (a : AssignmentRecord) (start_time end_time : Option Int) : Bool :=
  (match end_time with
    | none => true
    | some e => decide (a.start < e)) &&
  (match start_time with
    | none => true
    | some s =>
      match a.«end» with
      | none => true
      | some ae => decide (s < ae))

/-- Modelled from the spec: the call
`minimal_honeycomb.filter_assignments(assignments, start_time, end_time)`
(honeycomb_io.py lines 258-262) keeps exactly the assignments whose time
window overlaps the requested window. -/
def filter_assignments (assignments : List AssignmentRecord)
    (start_time end_time : Option Int) : List AssignmentRecord :=
  assignments.filter (fun a => overlaps a start_time end_time)

/-- The device-type condition of honeycomb_io.py line 266:
`device_types is None or datum.get('assigned').get('device_type') in
device_types`.  A missing `device_type` (Python `None`) is never an
element of a list of device-type strings. -/
def device_type_ok (device_types : Option (List String))
    (a : AssignmentRecord) : Bool :=
  match device_types with
  | none => true
  | some dts =>
    match a.assigned.device_type with
    | none => false
    | some t => dts.contains t

/-- The assignments surviving both local filters of
`fetch_device_assignments`: time-window overlap (line 258) then device
type (line 266). -/
def kept_assignments (result : List AssignmentRecord)
    (start_time end_time : Option Int)
    (device_types : Option (List String)) : List AssignmentRecord :=
  (filter_assignments result start_time end_time).filter
    (fun a => device_type_ok device_types a)

/-- One row of the assignments table (honeycomb_io.py lines 267-275),
indexed by `assignment_id`. -/
structure AssignmentRow where
  assignment_id : String
  device_id : Option String
  device_type : Option String
  name : Option String
  part_number : Option String
  serial_number : Option String
  tag_id : Option String
deriving DecidableEq, Repr

/-- The dict appended for a kept assignment (honeycomb_io.py lines
267-275). -/
def assignment_row (a : AssignmentRecord) : AssignmentRow :=
  { assignment_id := a.assignment_id
    device_id := a.assigned.device_id
    device_type := a.assigned.device_type
    name := a.assigned.name
    part_number := a.assigned.part_number
    serial_number := a.assigned.serial_number
    tag_id := a.assigned.tag_id }

/-- The table returned by `fetch_device_assignments`: the index name, the
column names (in order), and the rows keyed by assignment id. -/
structure AssignmentsDF where
  index_name : String
  columns : List String
  rows : List AssignmentRow
deriving DecidableEq, Repr

/-- The `return_columns` list of honeycomb_io.py lines 279-286. -/
def assignment_return_columns : List String :=
  ["device_id", "device_type", "name", "part_number", "serial_number", "tag_id"]

/-- Shallow embedding of `fetch_device_assignments` (honeycomb_io.py lines
206-291) from the service result onward: filter by time window and device
types, build the rows, reindex to `return_columns`, and prefix the index
name and column names when a prefix is supplied (lines 288-290). -/
def fetch_device_assignments (result : List AssignmentRecord)
    (start_time end_time : Option Int)
    (device_types : Option (List String))
    ( column_name_prefix : Option String) : AssignmentsDF :=
  let rows :=
    (kept_assignments result start_time end_time device_types).map assignment_row
  match column_name_prefix with
  | none =>
    { index_name := "assignment_id"
      columns := assignment_return_columns
      rows := rows }
  | some p =>
    { index_name := p ++ "_" ++ "assignment_id"
      columns := assignment_return_columns.map (fun c => p ++ "_" ++ c)
      rows := rows }

/-- C6: `fetch_device_assignments` keeps exactly the service assignments
whose time window overlaps the requested window and (when a device-type
list is requested) whose device type is in that list: an assignment is
among the kept ones iff it came from the service result, overlaps the
window, and passes the device-type condition, and the returned table's
rows are exactly the kept assignments' rows. -/
theorem fetch_device_assignments_filters (result : List AssignmentRecord)
    (start_time end_time : Option Int)
    (device_types : Option (List String))
    ( column_name_prefix : Option String) :
    (fetch_device_assignments result start_time end_time device_types
        column_name_prefix).rows =
      (kept_assignments result start_time end_time device_types).map
        assignment_row ∧
    ∀ a, a ∈ kept_assignments result start_time end_time device_types ↔
      (a ∈ result ∧ overlaps a start_time end_time = true ∧
        device_type_ok device_types a = true) := by
  constructor
  · cases column_name_prefix <;> rfl
  · intro a
    simp only [kept_assignments, filter_assignments, List.mem_filter,
      and_assoc]

/-- C9: when `device_types` is `None`, `fetch_device_assignments` applies
no device-type filter: the kept assignments are exactly the assignments
surviving the time-window filter, whatever their device type. -/
theorem fetch_device_assignments_no_type_filter
    (result : List AssignmentRecord) (start_time end_time : Option Int)
    ( column_name_prefix : Option String) :
    kept_assignments result start_time end_time none =
      filter_assignments result start_time end_time ∧
    (fetch_device_assignments result start_time end_time none
        column_name_prefix).rows =
      (filter_assignments result start_time end_time).map assignment_row := by
  constructor
  · simp [kept_assignments, device_type_ok]
  · cases column_name_prefix <;> simp [fetch_device_assignments,
      kept_assignments, device_type_ok]

/-- C8: with a non-None `column_name_prefix` `p` the returned table has
index name `p ++ "_assignment_id"` and columns exactly
`p ++ "_device_id"`, `p ++ "_device_type"`, `p ++ "_name"`,
`p ++ "_part_number"`, `p ++ "_serial_number"`, `p ++ "_tag_id"`, in that
order; with `column_name_prefix` equal to `None` the names are
unprefixed. -/
theorem fetch_device_assignments_column_names
    (result : List AssignmentRecord) (start_time end_time : Option Int)
    (device_types : Option (List String)) (p : String) :
    ((fetch_device_assignments result start_time end_time device_types
        (some p)).index_name = p ++ "_assignment_id" ∧
      (fetch_device_assignments result start_time end_time device_types
        (some p)).columns =
        [p ++ "_device_id", p ++ "_device_type", p ++ "_name",
          p ++ "_part_number", p ++ "_serial_number", p ++ "_tag_id"]) ∧
    ((fetch_device_assignments result start_time end_time device_types
        none).index_name = "assignment_id" ∧
      (fetch_device_assignments result start_time end_time device_types
        none).columns =
        ["device_id", "device_type", "name", "part_number",
          "serial_number", "tag_id"]) := by
  refine ⟨⟨?_, ?_⟩, rfl, rfl⟩ <;>
    simp [fetch_device_assignments, assignment_return_columns,
      String.append_assoc]

/-! BLE datapoints (`fetch_ble_datapoints`, honeycomb_io.py lines 8-154):
the query list built for `searchDatapoints`, the per-record parsing of the
embedded JSON payload, and the two pandas left joins. -/

/-- A value carried by a query clause: a list of ids (for the `IN`
operator) or a honeycomb datetime (timestamps are modelled as integers,
the external `to_honeycomb_datetime` serializer embedded as the
identity). -/
inductive QueryValue where
  | ids : List String → QueryValue
  | time : Int → QueryValue
deriving DecidableEq, Repr

/-- One clause of a query list sent to the service. -/
structure QueryClause where
  field : String
  operator : String
  value : QueryValue
deriving DecidableEq, Repr

/-- The query list built by `fetch_ble_datapoints` for the datapoint
search (honeycomb_io.py lines 72-90): a `source IN tag_assignment_ids`
clause, then a `timestamp GTE start` clause when `start` is given, then a
`timestamp LTE end` clause when `end` is given. -/
def build_datapoint_query_list (tag_assignment_ids : List String)
    (start «end» : Option Int) : List QueryClause :=
  [{ field := "source", operator := "IN", value := .ids tag_assignment_ids }] ++
  (match start with
    | none => []
    | some s => [{ field := "timestamp", operator := "GTE", value := .time s }]) ++
  (match «end» with
    | none => []
    | some e => [{ field := "timestamp", operator := "LTE", value := .time e }])

/-- Modelled from the spec: the service interprets the comparison
operators of a query clause on the `timestamp` field with their standard
meanings, `GTE` requesting timestamps greater than or equal to the value
and `LTE` requesting timestamps less than or equal to the value; clauses
on other fields do not constrain the timestamp. -/
def timestamp_clause_sat (ts : Int) (c : QueryClause) : Bool :=
  if c.field = "timestamp" then
    match c.operator, c.value with
    | "GTE", .time v => decide (v ≤ ts)
    | "LTE", .time v => decide (ts ≤ v)
    | _, _ => true
  else true

/-- A raw record returned by `searchDatapoints` with the `return_data` of
honeycomb_io.py lines 91-102.  The JSON text in `file.data` is embedded as
its decoded key-value object (JSON decoding itself is delegated to
Python's `json` library); `source.assignment_id` is a nullable cell. -/
structure BleDatapointRecord where
  data_id : String
  timestamp : Int
  source_assignment_id : Cell
  file_data : List (String × String)
deriving DecidableEq, Repr

/-- The dict built for one parsed datapoint (honeycomb_io.py lines
116-124): ids and timestamp from the record, `anchor_id` and `rssi`
looked up in the decoded payload (`dict.get` yielding null when the key
is absent).  The `float(...)` conversion of `rssi` does not affect the
claims below and the cell keeps the raw payload value. -/
structure ParsedDatapoint where
  data_id : String
  timestamp : Int
  tag_assignment_id : Cell
  anchor_id : Cell
  rssi : Cell
deriving DecidableEq, Repr

/-- Parse one returned datapoint record (honeycomb_io.py lines 116-124). -/
def parse_datapoint (d : BleDatapointRecord) : ParsedDatapoint :=
  { data_id := d.data_id
    timestamp := d.timestamp
    tag_assignment_id := d.source_assignment_id
    anchor_id := d.file_data.lookup "anchor_id"
    rssi := d.file_data.lookup "rssi" }

/-- The pandas left join of one parsed datapoint against the tag
assignments table on the `tag_assignment_id` column (honeycomb_io.py line
128): one entry per tag row whose index (its assignment id) equals the
datapoint's nullable `tag_assignment_id`, or a single `none` (all tag
columns null) when nothing matches. -/
def join_tags (p : ParsedDatapoint) (tags : List AssignmentRow) :
    List (Option AssignmentRow) :=
  if (tags.filter (fun t => some t.assignment_id == p.tag_assignment_id)).isEmpty
  then [none]
  else (tags.filter (fun t => some t.assignment_id == p.tag_assignment_id)).map some

/-- One row of the concatenated anchor lookup table built in
honeycomb_io.py lines 129-135: an anchor assignment row together with the
`anchor_id` index key it was given there (its assignment id in the first
copy, its nullable device id in the second). -/
structure AnchorEntry where
  anchor_id : Cell
  row : AssignmentRow
deriving DecidableEq, Repr

/-- The concatenated anchor lookup table `anchor_ids_df` (honeycomb_io.py
lines 129-135): every anchor assignment keyed by its assignment id,
followed by every anchor assignment keyed by its device id. -/
def anchor_ids (anchors : List AssignmentRow) : List AnchorEntry :=
  anchors.map (fun a => { anchor_id := some a.assignment_id, row := a }) ++
  anchors.map (fun a => { anchor_id := a.device_id, row := a })

/-- The pandas left join of one parsed datapoint against the concatenated
anchor table on the parsed `anchor_id` (honeycomb_io.py line 136).
Following pandas merge semantics, null keys match null keys, so the key
comparison is plain equality of nullable cells. -/
def join_anchors (p : ParsedDatapoint) (anchor_table : List AnchorEntry) :
    List (Option AssignmentRow) :=
  if (anchor_table.filter (fun e => e.anchor_id == p.anchor_id)).isEmpty
  then [none]
  else (anchor_table.filter (fun e => e.anchor_id == p.anchor_id)).map
    (fun e => some e.row)

/-- One row of the table produced by `fetch_ble_datapoints` after both
joins: the parsed datapoint fields together with the joined tag
assignment row (`none` meaning the tag columns are null) and the joined
anchor assignment row (`none` meaning the anchor columns -
`anchor_assignment_id`, `anchor_device_id`, `anchor_name` - are null). -/
structure OutputRow where
  data_id : String
  timestamp : Int
  tag_assignment_id : Cell
  anchor_id : Cell
  rssi : Cell
  tag : Option AssignmentRow
  anchor : Option AssignmentRow
deriving DecidableEq, Repr

/-- Shallow embedding of the parse-and-join stage of
`fetch_ble_datapoints` (honeycomb_io.py lines 114-136): one dict per
returned record, then a left join against the tag assignments table, then
a left join against the concatenated anchor table.  Successive pandas
left joins emit one output row per combination of matches for each
original row. -/
def fetch_ble_datapoints_rows (result : List BleDatapointRecord)
    (tags anchors : List AssignmentRow) : List OutputRow :=
  (result.map parse_datapoint).flatMap (fun p =>
    (join_tags p tags).flatMap (fun t =>
      (join_anchors p (anchor_ids anchors)).map (fun a =>
        { data_id := p.data_id
          timestamp := p.timestamp
          tag_assignment_id := p.tag_assignment_id
          anchor_id := p.anchor_id
          rssi := p.rssi
          tag := t
          anchor := a })))

/-- C10: when `end` is non-None, the datapoint query list contains a
`timestamp LTE end` clause, a timestamp equal to `end` satisfies every
timestamp clause of the query (so a datapoint at exactly `end` is
requested and included), while the assignment overlap filter is half-open
at its upper bound: an assignment starting exactly at the requested end is
excluded. -/
theorem datapoint_query_end_closed (tag_assignment_ids : List String)
    (start : Option Int) (e : Int) :
    ({ field := "timestamp", operator := "LTE", value := .time e } :
        QueryClause) ∈
      build_datapoint_query_list tag_assignment_ids start (some e) ∧
    (build_datapoint_query_list tag_assignment_ids none (some e)).all
      (fun c => timestamp_clause_sat e c) = true ∧
    ∀ (a : AssignmentRecord) (start_time : Option Int),
      overlaps a start_time (some a.start) = false := by
  refine ⟨?_, ?_, ?_⟩
  · cases start <;> simp [build_datapoint_query_list]
  · simp [build_datapoint_query_list, timestamp_clause_sat]
  · intro a start_time
    simp [overlaps]

/-- When the keys of a list are pairwise distinct, at most one element
matches any given key. -/
theorem length_filter_key_le_one {α β : Type} [BEq β] [LawfulBEq β]
    (l : List α) (key : α → β) (k : β) (h : (l.map key).Nodup) :
    (l.filter (fun x => key x == k)).length ≤ 1 := by
  induction l with
  | nil => simp
  | cons x xs ih =>
    simp only [List.map_cons, List.nodup_cons] at h
    by_cases hx : (key x == k) = true
    · have hk : key x = k := eq_of_beq hx
      have hnil : xs.filter (fun y => key y == k) = [] := by
        rw [List.filter_eq_nil_iff]
        intro y hy hbeq
        have hmem : key y ∈ List.map key xs := List.mem_map_of_mem key hy
        rw [eq_of_beq hbeq, ← hk] at hmem
        exact h.1 hmem
      simp [List.filter_cons, hx, hnil]
    · simp only [List.filter_cons, hx, if_neg]
      simp only [Bool.false_eq_true, if_false]
      exact ih h.2

/-- A left-join result for one row has exactly one entry when at most one
right-table entry matches (one entry per match, or one null row). -/
theorem length_if_empty_map {α γ : Type} (ms : List α) (g : α → γ) (d : γ)
    (h : ms.length ≤ 1) :
    (if ms.isEmpty then [d] else ms.map g).length = 1 := by
  cases ms with
  | nil => simp
  | cons x xs =>
    simp only [List.isEmpty_cons, List.length_cons, List.length_map,
      if_false, Bool.false_eq_true]
    simp only [List.length_cons] at h
    omega

/-- Under distinct tag assignment ids, the tag join yields exactly one row
per datapoint. -/
theorem join_tags_length (p : ParsedDatapoint) (tags : List AssignmentRow)
    (h : (tags.map (fun t => t.assignment_id)).Nodup) :
    (join_tags p tags).length = 1 := by
  apply length_if_empty_map
  have h2 : ((tags.map (fun t => t.assignment_id)).map some).Nodup :=
    h.map (Option.some_injective String)
  rw [List.map_map] at h2
  exact length_filter_key_le_one tags (fun t => some t.assignment_id)
    p.tag_assignment_id h2

/-- Under distinct keys in the concatenated anchor table, the anchor join
yields exactly one row per datapoint. -/
theorem join_anchors_length (p : ParsedDatapoint)
    (anchor_table : List AnchorEntry)
    (h : (anchor_table.map (fun e => e.anchor_id)).Nodup) :
    (join_anchors p anchor_table).length = 1 := by
  apply length_if_empty_map
  exact length_filter_key_le_one anchor_table (fun e => e.anchor_id)
    p.anchor_id h

/-- A flatMap in which every element produces exactly one entry preserves
the length. -/
theorem flatMap_length_one {α β : Type} (l : List α) (f : α → List β)
    (h : ∀ a ∈ l, (f a).length = 1) : (l.flatMap f).length = l.length := by
  induction l with
  | nil => simp
  | cons x xs ih =>
    simp only [List.flatMap_cons, List.length_append, List.length_cons]
    rw [h x (List.mem_cons_self x xs),
      ih (fun a ha => h a (List.mem_cons_of_mem x ha))]
    omega

/-- C1 counterexample: with one returned datapoint whose parsed
`anchor_id` equals the device id shared by two anchor assignments, the
anchor join duplicates the row, so the output does not contain exactly one
row per returned datapoint. -/
theorem fetch_ble_row_count_counterexample :
    (fetch_ble_datapoints_rows
        [{ data_id := "d1", timestamp := 0,
           source_assignment_id := some "TA1",
           file_data := [("anchor_id", "D"), ("rssi", "-60")] }]
        []
        [{ assignment_id := "AA1", device_id := some "D",
           device_type := none, name := none, part_number := none,
           serial_number := none, tag_id := none },
         { assignment_id := "AA2", device_id := some "D",
           device_type := none, name := none, part_number := none,
           serial_number := none, tag_id := none }]).length ≠
      ([{ data_id := "d1", timestamp := 0,
          source_assignment_id := some "TA1",
          file_data := [("anchor_id", "D"), ("rssi", "-60")] }] :
        List BleDatapointRecord).length := by
  decide

/-- C1 amended: the joins never drop rows, and when the tag assignment
ids are pairwise distinct and the keys of the concatenated anchor table
(each anchor assignment id and each anchor device id cell) are pairwise
distinct, the table produced by `fetch_ble_datapoints` contains exactly
one row per returned datapoint. -/
theorem fetch_ble_datapoints_row_count (result : List BleDatapointRecord)
    (tags anchors : List AssignmentRow)
    (htags : (tags.map (fun t => t.assignment_id)).Nodup)
    (hanch : ((anchor_ids anchors).map (fun e => e.anchor_id)).Nodup) :
    (fetch_ble_datapoints_rows result tags anchors).length =
      result.length := by
  unfold fetch_ble_datapoints_rows
  rw [flatMap_length_one]
  · exact List.length_map result parse_datapoint
  · intro p hp
    rw [flatMap_length_one]
    · exact join_tags_length p tags htags
    · intro t ht
      rw [List.length_map]
      exact join_anchors_length p (anchor_ids anchors) hanch

/-- Witness for the amended C1 at a concrete input with one datapoint,
one tag assignment and one anchor assignment. -/
theorem fetch_ble_datapoints_row_count_witness :
    (fetch_ble_datapoints_rows
        [{ data_id := "d1", timestamp := 0,
           source_assignment_id := some "TA1",
           file_data := [("anchor_id", "D1"), ("rssi", "-60")] }]
        [{ assignment_id := "TA1", device_id := some "T1",
           device_type := some "BLETAG", name := none, part_number := none,
           serial_number := none, tag_id := none }]
        [{ assignment_id := "AA1", device_id := some "D1",
           device_type := some "PIZERO", name := none, part_number := none,
           serial_number := none, tag_id := none }]).length =
      ([{ data_id := "d1", timestamp := 0,
          source_assignment_id := some "TA1",
          file_data := [("anchor_id", "D1"), ("rssi", "-60")] }] :
        List BleDatapointRecord).length :=
  fetch_ble_datapoints_row_count _ _ _ (by decide) (by decide)

/-- Characterization of one anchor-join result: either nothing in the
anchor table matched and the row is null, or the row is the payload of a
matching table entry. -/
theorem mem_join_anchors {p : ParsedDatapoint} {anchor_table : List AnchorEntry}
    {a : Option AssignmentRow} (ha : a ∈ join_anchors p anchor_table) :
    (a = none ∧ ∀ e ∈ anchor_table, e.anchor_id ≠ p.anchor_id) ∨
    (∃ e ∈ anchor_table, e.anchor_id = p.anchor_id ∧ a = some e.row) := by
  unfold join_anchors at ha
  by_cases hms :
      (anchor_table.filter (fun e => e.anchor_id == p.anchor_id)).isEmpty = true
  · left
    rw [if_pos hms] at ha
    have hnil : anchor_table.filter (fun e => e.anchor_id == p.anchor_id) = [] :=
      List.isEmpty_iff.mp hms
    rw [List.filter_eq_nil_iff] at hnil
    refine ⟨List.mem_singleton.mp ha, fun e he heq => ?_⟩
    exact hnil e he (beq_iff_eq.mpr heq)
  · right
    rw [if_neg hms] at ha
    obtain ⟨e, he, rfl⟩ := List.mem_map.mp ha
    obtain ⟨hetbl, hbeq⟩ := List.mem_filter.mp he
    exact ⟨e, hetbl, eq_of_beq hbeq, rfl⟩

/-- C7: in every output row whose anchor columns are populated, those
columns come from an anchor assignment of the anchor table whose
assignment id or device id equals the row's parsed `anchor_id`; a row
whose `anchor_id` matches neither the assignment id nor the device id of
any anchor assignment has null anchor columns. -/
theorem fetch_ble_anchor_linkage (result : List BleDatapointRecord)
    (tags anchors : List AssignmentRow) (r : OutputRow)
    (hr : r ∈ fetch_ble_datapoints_rows result tags anchors) :
    (∀ a, r.anchor = some a →
      a ∈ anchors ∧
        (some a.assignment_id = r.anchor_id ∨ a.device_id = r.anchor_id)) ∧
    (r.anchor = none →
      ∀ a ∈ anchors,
        some a.assignment_id ≠ r.anchor_id ∧ a.device_id ≠ r.anchor_id) := by
  simp only [fetch_ble_datapoints_rows, List.mem_flatMap, List.mem_map] at hr
  obtain ⟨p, hp, t, ht, a0, ha0, rfl⟩ := hr
  dsimp only
  constructor
  · intro a hanchor
    rcases mem_join_anchors ha0 with ⟨hnone, _⟩ | ⟨e, hetbl, hkey, heq⟩
    · rw [hnone] at hanchor
      exact absurd hanchor (by simp)
    · rw [heq] at hanchor
      have hrow : e.row = a := Option.some.injEq _ _ ▸ hanchor
      simp only [anchor_ids, List.mem_append, List.mem_map] at hetbl
      rcases hetbl with ⟨x, hx, rfl⟩ | ⟨x, hx, rfl⟩
      · exact ⟨hrow ▸ hx, Or.inl (by rw [← hrow, ← hkey])⟩
      · exact ⟨hrow ▸ hx, Or.inr (by rw [← hrow, ← hkey])⟩
  · intro hnone a ha
    rcases mem_join_anchors ha0 with ⟨_, hnomatch⟩ | ⟨e, _, _, heq⟩
    · constructor
      · exact hnomatch { anchor_id := some a.assignment_id, row := a }
          (by simp only [anchor_ids, List.mem_append, List.mem_map]
              exact Or.inl ⟨a, ha, rfl⟩)
      · exact hnomatch { anchor_id := a.device_id, row := a }
          (by simp only [anchor_ids, List.mem_append, List.mem_map]
              exact Or.inr ⟨a, ha, rfl⟩)
    · rw [hnone] at heq
      exact absurd heq (by simp)

/-- A sample returned datapoint record used to instantiate theorems at
concrete inputs. -/
def sample_record : BleDatapointRecord :=
  { data_id := "d1", timestamp := 0, source_assignment_id := some "TA1",
    file_data := [("anchor_id", "D1"), ("rssi", "-60")] }

/-- A sample anchor assignment row whose device id is the sample record's
parsed anchor id. -/
def sample_anchor : AssignmentRow :=
  { assignment_id := "AA1", device_id := some "D1",
    device_type := some "PIZERO", name := none, part_number := none,
    serial_number := none, tag_id := none }

/-- The output row produced from `sample_record` with no tag assignments
and the single anchor assignment `sample_anchor`. -/
def sample_row : OutputRow :=
  { data_id := "d1", timestamp := 0, tag_assignment_id := some "TA1",
    anchor_id := some "D1", rssi := some "-60", tag := none,
    anchor := some sample_anchor }

/-- Witness for C7 at a concrete output row whose anchor columns were
populated through the device-id linkage. -/
theorem fetch_ble_anchor_linkage_witness :
    (∀ a, sample_row.anchor = some a →
      a ∈ [sample_anchor] ∧
        (some a.assignment_id = sample_row.anchor_id ∨
          a.device_id = sample_row.anchor_id)) ∧
    (sample_row.anchor = none →
      ∀ a ∈ [sample_anchor],
        some a.assignment_id ≠ sample_row.anchor_id ∧
          a.device_id ≠ sample_row.anchor_id) :=
  fetch_ble_anchor_linkage [sample_record] [] [sample_anchor] sample_row
    (by decide)

end ProcessBleData
